import Mathlib

/-!
Verification of the solstice datacenter model against its specification.

The Python sources are embedded shallowly: real-valued quantities become
rationals (float literals such as `0.2` denote the exact rationals they are
written as), Python dictionaries become if-chains returning `Option`, raised
exceptions become `Except` errors, and attribute mutation on the model object
becomes explicit state passing.  All definitions are executable.
-/

set_option maxRecDepth 2000

namespace Solstice

/-! ## Cooling manager (`solstice_model/utils/cooling_manager.py`) -/

/-- One entry of `CoolingManager.COOLING_TYPES`. -/
structure CoolingTypeInfo where
  infoName : String
  efficiency_factor : ℚ
  pue_range : ℚ × ℚ
  water_usage : ℚ
  description : String
deriving DecidableEq

/-- The `COOLING_TYPES` class dictionary: cooling type code to its info. -/
def COOLING_TYPES (cooling_type : String) : Option CoolingTypeInfo :=
  if cooling_type = "air" then
    some { infoName := "Air-Cooled", efficiency_factor := 1, pue_range := (1.4, 1.8),
           water_usage := 0, description := "Traditional air cooling with CRAC units and chillers" }
  else if cooling_type = "water" then
    some { infoName := "Water-Cooled", efficiency_factor := 0.7, pue_range := (1.2, 1.5),
           water_usage := 1, description := "Water cooling with cooling towers" }
  else if cooling_type = "immersion" then
    some { infoName := "Immersion Cooling", efficiency_factor := 0.5, pue_range := (1.05, 1.2),
           water_usage := 0.3, description := "Servers immersed in dielectric fluid" }
  else if cooling_type = "hybrid" then
    some { infoName := "Hybrid Cooling", efficiency_factor := 0.8, pue_range := (1.3, 1.6),
           water_usage := 0.5, description := "Combination of air and water cooling approaches" }
  else
    none

/-- State of a `CoolingManager` instance.  Attributes that
`_initialize_cooling_params` only sets on some branches are `Option`s;
`getattr` with a default becomes `Option.getD` at the use site. -/
structure CoolingManager where
  cooling_type : String
  coef_of_performance : Option ℚ
  fan_power_factor : Option ℚ
  water_usage_factor : Option ℚ
  evaporation_rate : Option ℚ
deriving DecidableEq

/-- The constructor `CoolingManager.__init__` followed by
`_initialize_cooling_params`: an unrecognized type is replaced by `"air"`. -/
def CoolingManager.init (cooling_type : String) : CoolingManager :=
  let ct := if (COOLING_TYPES cooling_type).isNone then "air" else cooling_type
  if ct = "air" then
    { cooling_type := ct, coef_of_performance := some 3, fan_power_factor := some 1,
      water_usage_factor := none, evaporation_rate := none }
  else if ct = "water" then
    { cooling_type := ct, coef_of_performance := some 5, fan_power_factor := some 0.7,
      water_usage_factor := some 1, evaporation_rate := some 0.05 }
  else if ct = "immersion" then
    { cooling_type := ct, coef_of_performance := some 7, fan_power_factor := some 0.3,
      water_usage_factor := some 0.3, evaporation_rate := none }
  else if ct = "hybrid" then
    { cooling_type := ct, coef_of_performance := some 4.5, fan_power_factor := some 0.8,
      water_usage_factor := some 0.5, evaporation_rate := none }
  else
    { cooling_type := ct, coef_of_performance := none, fan_power_factor := none,
      water_usage_factor := none, evaporation_rate := none }

/-- The method `CoolingManager.estimate_water_usage`. -/
def CoolingManager.estimate_water_usage (m : CoolingManager)
    (heat_rejected ambient_temp humidity : ℚ) : ℚ :=
  if m.cooling_type ≠ "water" ∧ m.cooling_type ≠ "hybrid" then
    0
  else
    let base_water_usage := heat_rejected * 1.8 / 1000
    let temp_factor := 1 + max 0 ((ambient_temp - 20) / 100)
    let humidity_factor := 1 - min 0.3 (humidity / 100)
    let adjusted_usage := base_water_usage * temp_factor * humidity_factor
    adjusted_usage * m.water_usage_factor.getD 1

/-! ## Location manager (`utils/location_manager.py`) -/

/-- The `WEATHER_FILES` class dictionary: location code to EPW weather file. -/
def WEATHER_FILES (code : String) : Option String :=
  if code = "TX" then some "USA_TX_Dallas-Fort.Worth.epw"
  else if code = "NY" then some "USA_NY_New.York-LaGuardia.epw"
  else if code = "CA" then some "USA_CA_San.Jose-Mineta.epw"
  else if code = "AZ" then some "USA_AZ_Phoenix-Sky.Harbor.epw"
  else if code = "IL" then some "USA_IL_Chicago.OHare.epw"
  else if code = "GA" then some "USA_GA_Atlanta-Hartsfield-Jackson.epw"
  else if code = "WA" then some "USA_WA_Seattle-Tacoma.epw"
  else if code = "VA" then some "USA_VA_Leesburg.Exec.epw"
  else none

/-- The weather-file resolution step of `LocationManager._load_weather_data`:
a location code with no entry raises `ValueError` (embedded as an error).
The subsequent filesystem read of the resolved file is outside this model. -/
def locationWeatherFile (code : String) : Except String String :=
  match WEATHER_FILES code with
  | some f => Except.ok f
  | none => Except.error "No weather data available for location code"

/-! ## Carbon intensity tracker (`utils/carbon_intensity.py`) -/

/-- The `CI_FILES` class dictionary: location code to carbon intensity CSV. -/
def CI_FILES (code : String) : Option String :=
  if code = "TX" then some "TX_NG_&_avgCI.csv"
  else if code = "NY" then some "NY_NG_&_avgCI.csv"
  else if code = "CA" then some "CA_NG_&_avgCI.csv"
  else if code = "AZ" then some "AZ_NG_&_avgCI.csv"
  else if code = "IL" then some "IL_NG_&_avgCI.csv"
  else if code = "GA" then some "GA_NG_&_avgCI.csv"
  else if code = "WA" then some "WA_NG_&_avgCI.csv"
  else if code = "VA" then some "VA_NG_&_avgCI.csv"
  else none

/-- The `GRID_REGIONS` class dictionary: location code to grid region. -/
def GRID_REGIONS (code : String) : Option String :=
  if code = "TX" then some "ERCO"
  else if code = "NY" then some "NYIS"
  else if code = "CA" then some "CISO"
  else if code = "AZ" then some "AZPS"
  else if code = "IL" then some "MISO"
  else if code = "GA" then some "SOCO"
  else if code = "WA" then some "BPAT"
  else if code = "VA" then some "PJM"
  else none

/-- The file resolution step of `CarbonIntensityTracker._load_carbon_data`:
`grid_region = GRID_REGIONS.get(code, code)`, then the grid region is tried
against `CI_FILES`, then the location code, and finally the Texas file is used
as the default.  No exception is raised for an unknown location code. -/
def carbonIntensityFile (code : String) : String :=
  let grid_region := (GRID_REGIONS code).getD code
  match CI_FILES grid_region with
  | some f => f
  | none =>
    match CI_FILES code with
    | some f => f
    | none => "TX_NG_&_avgCI.csv"

/-! ## The simulation engine (`solstice_model/solstice_framework.py`) -/

/-- Outputs of `datacenter.calculate_HVAC_power` (a six-tuple in the source). -/
structure HVACPower where
  crac_fan_power : ℚ
  ct_fan_power : ℚ
  crac_cooling_load : ℚ
  chiller_power : ℚ
  cw_pump_power : ℚ
  ct_pump_power : ℚ
deriving DecidableEq

/-- Modelled from the spec: the repository files `datacenter.py` and
`dc_config.py` (the rack/CPU-level IT/thermal model and the HVAC power
equations) and the weather/carbon data files are not among the sources
verified here; per the specification they are external collaborators consumed
through narrow deterministic interfaces, collected in this structure.
Timestamps are abstracted by the hour index of the simulation.  The field
`sin_pi` abstracts `x` maps to `numpy.sin(pi * x)` used only by the synthetic
diurnal workload pattern. -/
structure ExternalModel where
  temperature : ℕ → ℚ
  wet_bulb_temperature : ℕ → ℚ
  carbon_intensity : ℕ → ℚ
  total_DC_full_load : ℚ
  compute_datacenter_IT_load_outlet_temp : List ℚ → ℚ → List ℚ × List ℚ × List ℚ
  calculate_avg_CRAC_return_temp : List ℚ → List ℚ → ℚ
  calculate_HVAC_power : ℚ → ℚ → ℚ → ℚ → HVACPower
  calculate_cooling_tower_water_usage : ℚ → ℚ → ℚ → ℚ
  sin_pi : ℚ → ℚ

/-- Constructor arguments and configuration of `SolsticeDatacenterModel`
that the simulation loop reads.  `simulation_days` is the number of simulated
days. -/
structure Config where
  NUM_RACKS : ℕ
  RACK_SUPPLY_APPROACH_TEMP_LIST : List ℚ
  RACK_RETURN_APPROACH_TEMP_LIST : List ℚ
  location : String
  cooling_type : String
  datacenter_capacity_mw : ℚ
  simulation_days : ℕ
  cooling_efficiency_factor : ℚ
  pue_overhead : ℚ
deriving DecidableEq

/-- The scaling factor computed in `_initialize_datacenter`:
`datacenter_capacity_mw * 1e6 / dc_model.total_DC_full_load`. -/
def scaling_factor (cfg : Config) (ext : ExternalModel) : ℚ :=
  cfg.datacenter_capacity_mw * 1000000 / ext.total_DC_full_load

/-- The attributes of `dc_model` mutated by the water-cooling branch of the
simulation loop (`hot_water_temp`, `cold_water_temp`, `wet_bulb_temp`). -/
structure DCState where
  hot_water_temp : ℚ
  cold_water_temp : ℚ
  wet_bulb_temp : ℚ
deriving DecidableEq

/-- The CRAC setpoint policy of the loop:
`min(22.0, max(16.0, 18.0 + (ambient_temp - 20.0) * 0.2))`. -/
def crac_setpoint (ambient_temp : ℚ) : ℚ :=
  min 22 (max 16 (18 + (ambient_temp - 20) * 0.2))

/-- One row of the `simulation_results` dictionary (the per-timestep values
appended by one iteration of the loop). -/
structure StepRecord where
  ambient_temperature : ℚ
  carbon_intensity : ℚ
  datacenter_energy : ℚ
  cooling_energy : ℚ
  total_energy : ℚ
  carbon_emissions : ℚ
  water_usage : ℚ
deriving DecidableEq

/-- One iteration of the simulation loop of `run_simulation` at hour index
`i` with workload fraction `current_workload`.  The source's single
`if self.cooling_type == 'air'` branch assigns `cooling_power`,
`water_usage` and the mutated water temperatures; here the three values are
each selected by that same condition. -/
def simStep (cfg : Config) (ext : ExternalModel) (st : DCState)
    (i : ℕ) (current_workload : ℚ) : StepRecord × DCState :=
  let ambient_temp := ext.temperature i
  let ci := ext.carbon_intensity i
  let rack_loads := List.replicate cfg.NUM_RACKS (current_workload * 100)
  let setpoint := crac_setpoint ambient_temp
  let itOut := ext.compute_datacenter_IT_load_outlet_temp rack_loads setpoint
  let rack_cpu_power := itOut.1
  let rack_itfan_power := itOut.2.1
  let rack_outlet_temps := itOut.2.2
  let it_power := (rack_cpu_power.sum + rack_itfan_power.sum) * scaling_factor cfg ext
  let avg_crac_return_temp :=
    ext.calculate_avg_CRAC_return_temp cfg.RACK_RETURN_APPROACH_TEMP_LIST rack_outlet_temps
  let hvac := ext.calculate_HVAC_power setpoint avg_crac_return_temp ambient_temp
    (ext.total_DC_full_load * scaling_factor cfg ext)
  let cooling_power :=
    if cfg.cooling_type = "air" then
      (hvac.crac_fan_power + hvac.chiller_power)
        * cfg.cooling_efficiency_factor * scaling_factor cfg ext
    else
      (hvac.crac_fan_power + hvac.ct_fan_power + hvac.chiller_power
        + hvac.cw_pump_power + hvac.ct_pump_power)
        * cfg.cooling_efficiency_factor * scaling_factor cfg ext
  let st' : DCState :=
    if cfg.cooling_type = "air" then st
    else { hot_water_temp := avg_crac_return_temp, cold_water_temp := setpoint,
           wet_bulb_temp := ext.wet_bulb_temperature i }
  let water_usage :=
    if cfg.cooling_type = "air" then 0
    else ext.calculate_cooling_tower_water_usage st'.hot_water_temp st'.cold_water_temp
      st'.wet_bulb_temp * scaling_factor cfg ext
  let total_energy := (it_power + cooling_power) * cfg.pue_overhead
  ({ ambient_temperature := ambient_temp,
     carbon_intensity := ci,
     datacenter_energy := it_power,
     cooling_energy := cooling_power,
     total_energy := total_energy,
     carbon_emissions := total_energy * ci / 1000000,
     water_usage := water_usage }, st')

/-- The simulation loop over the list of (hour index, workload) pairs,
threading the mutable `dc_model` water temperatures. -/
def runSteps (cfg : Config) (ext : ExternalModel) :
    DCState → List (ℕ × ℚ) → List StepRecord × DCState
  | st, [] => ([], st)
  | st, (i, w) :: rest =>
    let step := simStep cfg ext st i w
    let next := runSteps cfg ext step.2 rest
    (step.1 :: next.1, next.2)

/-- The synthetic diurnal workload pattern of `run_simulation`: the 24-hour
day pattern repeated across the simulation hours (entry `i` reads the day
pattern at `i % 24`). -/
def default_workload (ext : ExternalModel) (simulation_hours : ℕ) : List ℚ :=
  (List.range simulation_hours).map (fun i =>
    let hour : ℕ := i % 24
    if 8 ≤ hour ∧ hour < 20 then
      0.7 + 0.2 * ext.sin_pi (((hour : ℚ) - 8) / 12)
    else
      0.4 + 0.1 * ext.sin_pi (((hour : ℚ) - 20) / 12))

/-- The `simulation_results` produced by one completed `run_simulation` call:
the per-timestep records plus the stored workload list (the source stores the
caller's list unchanged, even when it is longer than the simulated hours). -/
structure SimResult where
  records : List StepRecord
  workload : List ℚ
deriving DecidableEq

/-- The `datacenter_energy` series of the results dictionary. -/
def SimResult.datacenter_energy (r : SimResult) : List ℚ :=
  r.records.map StepRecord.datacenter_energy

/-- The `cooling_energy` series of the results dictionary. -/
def SimResult.cooling_energy (r : SimResult) : List ℚ :=
  r.records.map StepRecord.cooling_energy

/-- The `total_energy` series of the results dictionary. -/
def SimResult.total_energy (r : SimResult) : List ℚ :=
  r.records.map StepRecord.total_energy

/-- The `carbon_intensity` series of the results dictionary. -/
def SimResult.carbon_intensity (r : SimResult) : List ℚ :=
  r.records.map StepRecord.carbon_intensity

/-- The `carbon_emissions` series of the results dictionary. -/
def SimResult.carbon_emissions (r : SimResult) : List ℚ :=
  r.records.map StepRecord.carbon_emissions

/-- The `water_usage` series of the results dictionary. -/
def SimResult.water_usage (r : SimResult) : List ℚ :=
  r.records.map StepRecord.water_usage

/-- The `ambient_temperature` series of the results dictionary. -/
def SimResult.ambient_temperature (r : SimResult) : List ℚ :=
  r.records.map StepRecord.ambient_temperature

/-- The workload used by `run_simulation`: the caller's pattern when given,
otherwise the synthetic pattern of length `24 * simulation_days`. -/
def resolvedWorkload (cfg : Config) (ext : ExternalModel)
    (workload_pattern : Option (List ℚ)) : List ℚ :=
  match workload_pattern with
  | none => default_workload ext (24 * cfg.simulation_days)
  | some w => w

/-- The (hour index, workload fraction) pairs iterated by the loop. -/
def simulationSteps (cfg : Config) (ext : ExternalModel)
    (workload_pattern : Option (List ℚ)) : List (ℕ × ℚ) :=
  (List.range (24 * cfg.simulation_days)).map
    (fun i => (i, (resolvedWorkload cfg ext workload_pattern).getD i 0))

/-- The method `SolsticeDatacenterModel.run_simulation`.  The simulated hours are the
hourly steps from the start date to `start + simulation_days`, i.e.
`24 * simulation_days`.  A caller-supplied workload shorter than that makes
the Python loop fail with `IndexError` at `workload_pattern[i]`; no length
validation is performed, and a longer workload is processed (and stored in
full).  The final `DCState` is returned alongside the results to model the
mutated `dc_model` attributes. -/
def runSimulation (cfg : Config) (ext : ExternalModel) (st : DCState)
    (workload_pattern : Option (List ℚ)) : Except String (SimResult × DCState) :=
  if 24 * cfg.simulation_days ≤ (resolvedWorkload cfg ext workload_pattern).length then
    Except.ok
      ({ records := (runSteps cfg ext st (simulationSteps cfg ext workload_pattern)).1,
         workload := resolvedWorkload cfg ext workload_pattern },
       (runSteps cfg ext st (simulationSteps cfg ext workload_pattern)).2)
  else
    Except.error "IndexError"

/-! ## Query summary (`SolsticeDatacenterModel.query`, default branch) -/

/-- The maximum of a pandas numeric column (`df[col].max()`). -/
def listMax : List ℚ → ℚ
  | [] => 0
  | x :: xs => xs.foldl max x

/-- The summary dictionary built by the keywordless branch of `query`.
The water-usage key is an `Option`: it is present exactly when the code adds
it to the dictionary. -/
structure Summary where
  total_energy_kwh : ℚ
  average_power_kw : ℚ
  peak_power_kw : ℚ
  total_carbon_emissions_tons : ℚ
  datacenter_percent : ℚ
  cooling_percent : ℚ
  simulation_duration_hours : ℕ
  location : String
  cooling_type : String
  datacenter_capacity_mw : ℚ
  total_water_usage_liters : Option ℚ
deriving DecidableEq

/-- The summary branch of `SolsticeDatacenterModel.query`: the guard
`if not any(self.simulation_results['datacenter_energy'])` returns the error
dictionary when every recorded IT power is zero (in particular before any
run); otherwise the summary is built, and `total_water_usage_liters` is added
only when `self.cooling_type == 'water'`. -/
def querySummary (cfg : Config) (res : SimResult) : Except String Summary :=
  if res.datacenter_energy.all (fun x => x = 0) then
    Except.error "No simulation data available. Please run a simulation first."
  else
    Except.ok
      { total_energy_kwh := res.total_energy.sum / 1000,
        average_power_kw := res.total_energy.sum / (res.total_energy.length : ℚ) / 1000,
        peak_power_kw := listMax res.total_energy / 1000,
        total_carbon_emissions_tons := res.carbon_emissions.sum,
        datacenter_percent := res.datacenter_energy.sum / res.total_energy.sum * 100,
        cooling_percent := res.cooling_energy.sum / res.total_energy.sum * 100,
        simulation_duration_hours := res.records.length,
        location := cfg.location,
        cooling_type := cfg.cooling_type,
        datacenter_capacity_mw := cfg.datacenter_capacity_mw,
        total_water_usage_liters :=
          if cfg.cooling_type = "water" then some res.water_usage.sum else none }

/-! ## Statements taken from the specification text

These two definitions are written from the spec's words, for comparison with
the corresponding definitions translated from the source. -/

/-- Stated from the spec: clamping `x` to the interval `[lo, hi]`. -/
def specClamp (lo hi x : ℚ) : ℚ := max lo (min hi x)

/-- Stated from the spec: the water-usage estimate
`heat * 1.8 / 1000` liters, multiplied by the temperature factor
`1 + max(0, (ambient - 20)/100)`, the humidity factor
`1 - min(0.3, humidity/100)`, and the cooling type's water-usage factor. -/
def specWaterUsage (factor heat_rejected ambient_temp humidity : ℚ) : ℚ :=
  heat_rejected * 1.8 / 1000 * (1 + max 0 ((ambient_temp - 20) / 100))
    * (1 - min 0.3 (humidity / 100)) * factor

/-! ## Concrete instances used by counterexamples and witnesses -/

/-- A concrete deterministic external model: constant providers, a single
rack drawing 100 W of CPU power, every HVAC subsystem drawing 1 W, and a
cooling-tower water usage of 5 liters per hour. -/
def extC : ExternalModel :=
  { temperature := fun _ => 24
    wet_bulb_temperature := fun _ => 15
    carbon_intensity := fun _ => 400
    total_DC_full_load := 1000000
    compute_datacenter_IT_load_outlet_temp := fun _ _ => ([100], [0], [30])
    calculate_avg_CRAC_return_temp := fun _ _ => 30
    calculate_HVAC_power := fun _ _ _ _ => ⟨1, 1, 0, 1, 1, 1⟩
    calculate_cooling_tower_water_usage := fun _ _ _ => 5
    sin_pi := fun _ => 0 }

/-- A concrete external model whose chiller power equals the full-load
capacity argument it receives (a linear dependence, as any physically
plausible HVAC model has). -/
def extL : ExternalModel :=
  { extC with calculate_HVAC_power := fun _ _ _ data_center_full_load =>
      ⟨0, 0, 0, data_center_full_load, 0, 0⟩ }

/-- A concrete 1 MW air-cooled one-day configuration. -/
def cfgBase : Config :=
  { NUM_RACKS := 1
    RACK_SUPPLY_APPROACH_TEMP_LIST := [5]
    RACK_RETURN_APPROACH_TEMP_LIST := [4]
    location := "TX"
    cooling_type := "air"
    datacenter_capacity_mw := 1
    simulation_days := 1
    cooling_efficiency_factor := 1
    pue_overhead := 1.1 }

/-- An invalid configuration: capacity 0 MW and a return-approach list whose
length 0 disagrees with the rack count 1. -/
def cfgBad : Config :=
  { cfgBase with datacenter_capacity_mw := 0, RACK_RETURN_APPROACH_TEMP_LIST := [] }

/-- The base configuration with its capacity doubled, as in claim C3. -/
def cfgDouble : Config :=
  { cfgBase with datacenter_capacity_mw := 2 * cfgBase.datacenter_capacity_mw }

/-- The base configuration with water cooling. -/
def cfgWaterC : Config := { cfgBase with cooling_type := "water" }

/-- The base configuration with hybrid cooling. -/
def cfgHybridC : Config := { cfgBase with cooling_type := "hybrid" }

/-- An initial state for the mutable water temperatures. -/
def st0 : DCState := ⟨0, 0, 0⟩

/-- A caller-supplied workload of length 25 for a 24-hour simulation. -/
def wl25 : List ℚ := List.replicate 25 0.5

/-- An all-zero step record, used as a lookup default. -/
def rec0 : StepRecord := ⟨0, 0, 0, 0, 0, 0, 0⟩

/-- The result of the base air-cooled run under `extC`. -/
def resAir : SimResult :=
  match runSimulation cfgBase extC st0 none with
  | Except.ok p => p.1
  | Except.error _ => ⟨[], []⟩

/-- The final state of the base air-cooled run under `extC`. -/
def stAir : DCState :=
  match runSimulation cfgBase extC st0 none with
  | Except.ok p => p.2
  | Except.error _ => st0

/-- The result of the base run under the capacity-sensitive model `extL`. -/
def resL1 : SimResult :=
  match runSimulation cfgBase extL st0 none with
  | Except.ok p => p.1
  | Except.error _ => ⟨[], []⟩

/-- The final state of the base run under `extL`. -/
def stL1 : DCState :=
  match runSimulation cfgBase extL st0 none with
  | Except.ok p => p.2
  | Except.error _ => st0

/-- The result of the doubled-capacity run under `extL`. -/
def resL2 : SimResult :=
  match runSimulation cfgDouble extL st0 none with
  | Except.ok p => p.1
  | Except.error _ => ⟨[], []⟩

/-- The final state of the doubled-capacity run under `extL`. -/
def stL2 : DCState :=
  match runSimulation cfgDouble extL st0 none with
  | Except.ok p => p.2
  | Except.error _ => st0

/-- The result of the water-cooled run under `extC`. -/
def resWater : SimResult :=
  match runSimulation cfgWaterC extC st0 none with
  | Except.ok p => p.1
  | Except.error _ => ⟨[], []⟩

/-- The result of the hybrid-cooled run under `extC`. -/
def resHybrid : SimResult :=
  match runSimulation cfgHybridC extC st0 none with
  | Except.ok p => p.1
  | Except.error _ => ⟨[], []⟩

/-- The summary of the water-cooled run. -/
def sumWater : Summary :=
  match querySummary cfgWaterC resWater with
  | Except.ok s => s
  | Except.error _ => ⟨0, 0, 0, 0, 0, 0, 0, "", "", 0, none⟩

/-- The location codes that both data dictionaries know. -/
def knownLocationCodes : List String :=
  ["TX", "NY", "CA", "AZ", "IL", "GA", "WA", "VA"]

/-- Decidable equality of `Except` values, for evaluating concrete runs. -/
instance {ε α : Type} [DecidableEq ε] [DecidableEq α] : DecidableEq (Except ε α) := fun x y =>
  match x, y with
  | Except.ok a, Except.ok b =>
    if h : a = b then isTrue (by rw [h]) else isFalse (fun hc => h (Except.ok.inj hc))
  | Except.error e, Except.error f =>
    if h : e = f then isTrue (by rw [h]) else isFalse (fun hc => h (Except.error.inj hc))
  | Except.ok _, Except.error _ => isFalse (fun hc => Except.noConfusion hc)
  | Except.error _, Except.ok _ => isFalse (fun hc => Except.noConfusion hc)

/-! ## Helper lemmas about the engine -/

/-- The record produced by one loop iteration does not depend on the incoming
mutable water-temperature state: the water branch overwrites all three
temperatures before reading them, and the air branch never reads them. -/
lemma simStep_fst_ignores_state (cfg : Config) (ext : ExternalModel)
    (st st' : DCState) (i : ℕ) (w : ℚ) :
    (simStep cfg ext st i w).1 = (simStep cfg ext st' i w).1 := by
  by_cases h : cfg.cooling_type = "air" <;> simp [simStep, h]

/-- The records produced by the loop do not depend on the initial mutable
state. -/
lemma runSteps_fst_ignores_state (cfg : Config) (ext : ExternalModel) :
    ∀ (l : List (ℕ × ℚ)) (st st' : DCState),
      (runSteps cfg ext st l).1 = (runSteps cfg ext st' l).1 := by
  intro l
  induction l with
  | nil => intro st st'; rfl
  | cons p rest ih =>
    intro st st'
    obtain ⟨i, w⟩ := p
    simp only [runSteps]
    exact congrArg₂ List.cons (simStep_fst_ignores_state cfg ext st st' i w) (ih _ _)

/-- The loop produces one record per step. -/
lemma runSteps_length (cfg : Config) (ext : ExternalModel) :
    ∀ (l : List (ℕ × ℚ)) (st : DCState),
      ((runSteps cfg ext st l).1).length = l.length := by
  intro l
  induction l with
  | nil => intro st; rfl
  | cons p rest ih =>
    intro st
    obtain ⟨i, w⟩ := p
    simp only [runSteps, List.length_cons]
    exact congrArg Nat.succ (ih _)

/-- A property of every record of every single step holds of every record
the loop produces. -/
lemma runSteps_forall (cfg : Config) (ext : ExternalModel) (P : StepRecord → Prop)
    (hP : ∀ st i w, P (simStep cfg ext st i w).1) :
    ∀ (l : List (ℕ × ℚ)) (st : DCState) (r : StepRecord),
      r ∈ (runSteps cfg ext st l).1 → P r := by
  intro l
  induction l with
  | nil => intro st r hr; simp [runSteps] at hr
  | cons p rest ih =>
    intro st r hr
    obtain ⟨i, w⟩ := p
    simp only [runSteps, List.mem_cons] at hr
    rcases hr with hr | hr
    · exact hr ▸ hP st i w
    · exact ih _ r hr

/-- Inversion of a successful run: the result is the records of the loop over
`simulationSteps` together with the resolved workload. -/
lemma runSimulation_ok_shape {cfg : Config} {ext : ExternalModel} {st : DCState}
    {wo : Option (List ℚ)} {res : SimResult} {st2 : DCState}
    (h : runSimulation cfg ext st wo = Except.ok (res, st2)) :
    res = { records := (runSteps cfg ext st (simulationSteps cfg ext wo)).1,
            workload := resolvedWorkload cfg ext wo } ∧
    st2 = (runSteps cfg ext st (simulationSteps cfg ext wo)).2 := by
  unfold runSimulation at h
  split at h
  · simp only [Except.ok.injEq, Prod.mk.injEq] at h
    exact ⟨h.1.symm, h.2.symm⟩
  · simp at h

/-- The number of loop steps is the number of simulated hours. -/
lemma simulationSteps_length (cfg : Config) (ext : ExternalModel)
    (wo : Option (List ℚ)) :
    (simulationSteps cfg ext wo).length = 24 * cfg.simulation_days := by
  simp [simulationSteps]

/-- The base air-cooled run under `extC` succeeds, with `resAir`/`stAir` its
components. -/
lemma runAir_eq : runSimulation cfgBase extC st0 none = Except.ok (resAir, stAir) := by
  have hok : (runSimulation cfgBase extC st0 none).isOk = true := by
    with_unfolding_all decide
  unfold resAir stAir
  cases hrun : runSimulation cfgBase extC st0 none with
  | ok p => rfl
  | error e => rw [hrun] at hok; exact Bool.noConfusion hok

/-- The base run under `extL` succeeds, with `resL1`/`stL1` its components. -/
lemma runL1_eq : runSimulation cfgBase extL st0 none = Except.ok (resL1, stL1) := by
  have hok : (runSimulation cfgBase extL st0 none).isOk = true := by
    with_unfolding_all decide
  unfold resL1 stL1
  cases hrun : runSimulation cfgBase extL st0 none with
  | ok p => rfl
  | error e => rw [hrun] at hok; exact Bool.noConfusion hok

/-- The doubled-capacity run under `extL` succeeds, with `resL2`/`stL2` its
components. -/
lemma runL2_eq : runSimulation cfgDouble extL st0 none = Except.ok (resL2, stL2) := by
  have hok : (runSimulation cfgDouble extL st0 none).isOk = true := by
    with_unfolding_all decide
  unfold resL2 stL2
  cases hrun : runSimulation cfgDouble extL st0 none with
  | ok p => rfl
  | error e => rw [hrun] at hok; exact Bool.noConfusion hok

/-- The summary of the water-cooled run succeeds, with `sumWater` its value. -/
lemma sumWater_eq : querySummary cfgWaterC resWater = Except.ok sumWater := by
  have hok : (querySummary cfgWaterC resWater).isOk = true := by
    with_unfolding_all decide
  unfold sumWater
  cases hrun : querySummary cfgWaterC resWater with
  | ok s => rfl
  | error e => rw [hrun] at hok; exact Bool.noConfusion hok

/-! ## Claim theorems -/

/-- Claim C2: at every timestep of every completed run, the recorded total
energy equals `(it_power + cooling_power) * pue_overhead`, where the IT and
cooling powers are the values recorded for that same timestep.  The equality
is exact in the rational model, hence within any relative tolerance. -/
theorem claim_C2_total_energy (cfg : Config) (ext : ExternalModel) (st : DCState)
    (wo : Option (List ℚ)) (res : SimResult) (st2 : DCState)
    (h : runSimulation cfg ext st wo = Except.ok (res, st2))
    (r : StepRecord) (hr : r ∈ res.records) :
    r.total_energy = (r.datacenter_energy + r.cooling_energy) * cfg.pue_overhead := by
  obtain ⟨hres, -⟩ := runSimulation_ok_shape h
  subst hres
  exact runSteps_forall cfg ext
    (fun r => r.total_energy = (r.datacenter_energy + r.cooling_energy) * cfg.pue_overhead)
    (fun st i w => rfl) _ st r hr

/-- Witness for C2 at a concrete run: the base one-day air-cooled
configuration under the concrete external model. -/
theorem claim_C2_witness :
    runSimulation cfgBase extC st0 none = Except.ok (resAir, stAir) ∧
    resAir.records.getD 0 rec0 ∈ resAir.records ∧
    (resAir.records.getD 0 rec0).total_energy =
      ((resAir.records.getD 0 rec0).datacenter_energy
        + (resAir.records.getD 0 rec0).cooling_energy) * cfgBase.pue_overhead := by
  have hlen : 0 < resAir.records.length := by with_unfolding_all decide
  have hmem : resAir.records.getD 0 rec0 ∈ resAir.records := by
    rw [List.getD_eq_getElem _ _ hlen]
    exact List.getElem_mem hlen
  exact ⟨runAir_eq, hmem,
    claim_C2_total_energy cfgBase extC st0 none resAir stAir runAir_eq _ hmem⟩

/-- Claim C6: a completed run of a configuration with `simulation_days` days
contains exactly `24 * simulation_days` records (the hourly steps of
`simulation_days` whole days, so the ceiling is exact), and every accumulator
series has that same length. -/
theorem claim_C6_record_count (cfg : Config) (ext : ExternalModel) (st : DCState)
    (wo : Option (List ℚ)) (res : SimResult) (st2 : DCState)
    (h : runSimulation cfg ext st wo = Except.ok (res, st2)) :
    res.records.length = 24 * cfg.simulation_days ∧
    res.datacenter_energy.length = 24 * cfg.simulation_days ∧
    res.cooling_energy.length = 24 * cfg.simulation_days ∧
    res.total_energy.length = 24 * cfg.simulation_days ∧
    res.carbon_intensity.length = 24 * cfg.simulation_days ∧
    res.carbon_emissions.length = 24 * cfg.simulation_days ∧
    res.water_usage.length = 24 * cfg.simulation_days ∧
    res.ambient_temperature.length = 24 * cfg.simulation_days := by
  obtain ⟨hres, -⟩ := runSimulation_ok_shape h
  subst hres
  have hlen : (runSteps cfg ext st (simulationSteps cfg ext wo)).1.length
      = 24 * cfg.simulation_days := by
    rw [runSteps_length, simulationSteps_length]
  simp [SimResult.datacenter_energy, SimResult.cooling_energy, SimResult.total_energy,
    SimResult.carbon_intensity, SimResult.carbon_emissions, SimResult.water_usage,
    SimResult.ambient_temperature, hlen]

/-- Witness for C6 at the concrete base run. -/
theorem claim_C6_witness :
    runSimulation cfgBase extC st0 none = Except.ok (resAir, stAir) ∧
    resAir.records.length = 24 * cfgBase.simulation_days ∧
    resAir.datacenter_energy.length = 24 * cfgBase.simulation_days ∧
    resAir.cooling_energy.length = 24 * cfgBase.simulation_days ∧
    resAir.total_energy.length = 24 * cfgBase.simulation_days ∧
    resAir.carbon_intensity.length = 24 * cfgBase.simulation_days ∧
    resAir.carbon_emissions.length = 24 * cfgBase.simulation_days ∧
    resAir.water_usage.length = 24 * cfgBase.simulation_days ∧
    resAir.ambient_temperature.length = 24 * cfgBase.simulation_days :=
  ⟨runAir_eq, claim_C6_record_count cfgBase extC st0 none resAir stAir runAir_eq⟩

/-- Claim C7: the run is deterministic.  The only mutable inputs of the loop
besides the configuration, workload and provider responses are the three
water temperatures carried on the model object; the produced result does not
depend on them, so two invocations with identical configuration, workload and
providers (in particular, a second invocation starting from the state the
first one left behind) return identical results. -/
theorem claim_C7_deterministic (cfg : Config) (ext : ExternalModel)
    (wo : Option (List ℚ)) (st1 st2 : DCState) :
    (runSimulation cfg ext st1 wo).map Prod.fst
      = (runSimulation cfg ext st2 wo).map Prod.fst := by
  unfold runSimulation
  split
  · simp only [Except.map]
    rw [runSteps_fst_ignores_state cfg ext (simulationSteps cfg ext wo) st1 st2]
  · rfl

/-- Claim C8: the CRAC setpoint used by the engine at a timestep equals
`18 + 0.2 * (ambient - 20)` clamped to `[16, 22]`, where the ambient
temperature is the location provider's value for that timestep. -/
theorem claim_C8_crac_setpoint (ext : ExternalModel) (i : ℕ) :
    crac_setpoint (ext.temperature i)
      = specClamp 16 22 (18 + 0.2 * (ext.temperature i - 20)) := by
  generalize ext.temperature i = a
  have hc : 18 + 0.2 * (a - 20) = 18 + (a - 20) * 0.2 := by ring
  rw [specClamp, hc, crac_setpoint]
  generalize 18 + (a - 20) * 0.2 = x
  simp only [min_def, max_def]
  split_ifs <;> first | rfl | linarith

/-- One loop iteration is the same under any two non-`"air"` cooling type
strings: the loop dispatches only on equality with `"air"`. -/
lemma simStep_cooling_nonair (cfg : Config) (ext : ExternalModel)
    (ct1 ct2 : String) (h1 : ct1 ≠ "air") (h2 : ct2 ≠ "air")
    (st : DCState) (i : ℕ) (w : ℚ) :
    simStep { cfg with cooling_type := ct1 } ext st i w
      = simStep { cfg with cooling_type := ct2 } ext st i w := by
  simp [simStep, h1, h2, scaling_factor]

/-- The whole loop is the same under any two non-`"air"` cooling types. -/
lemma runSteps_cooling_nonair (cfg : Config) (ext : ExternalModel)
    (ct1 ct2 : String) (h1 : ct1 ≠ "air") (h2 : ct2 ≠ "air") :
    ∀ (l : List (ℕ × ℚ)) (st : DCState),
      runSteps { cfg with cooling_type := ct1 } ext st l
        = runSteps { cfg with cooling_type := ct2 } ext st l := by
  intro l
  induction l with
  | nil => intro st; rfl
  | cons p rest ih =>
    intro st
    obtain ⟨i, w⟩ := p
    simp only [runSteps]
    rw [simStep_cooling_nonair cfg ext ct1 ct2 h1 h2 st i w, ih]

/-- The run is the same under any two non-`"air"` cooling types. -/
lemma runSimulation_cooling_nonair (cfg : Config) (ext : ExternalModel)
    (st : DCState) (wo : Option (List ℚ)) (ct1 ct2 : String)
    (h1 : ct1 ≠ "air") (h2 : ct2 ≠ "air") :
    runSimulation { cfg with cooling_type := ct1 } ext st wo
      = runSimulation { cfg with cooling_type := ct2 } ext st wo := by
  have hwl : resolvedWorkload { cfg with cooling_type := ct1 } ext wo
      = resolvedWorkload { cfg with cooling_type := ct2 } ext wo := rfl
  have hsteps : simulationSteps { cfg with cooling_type := ct1 } ext wo
      = simulationSteps { cfg with cooling_type := ct2 } ext wo := rfl
  unfold runSimulation
  rw [hwl, hsteps, runSteps_cooling_nonair cfg ext ct1 ct2 h1 h2]

/-- Claim C1 counterexample: under the concrete external model, the run with
the unknown cooling type `"foo"` differs from the run with `"air"` — already
its water-usage series is nonzero, because `"foo"` takes the water-cooling
branch of the loop. -/
theorem claim_C1_counterexample :
    ((runSimulation { cfgBase with cooling_type := "foo" } extC st0 none).toOption.map
        (fun p => p.1.water_usage))
      ≠ ((runSimulation cfgBase extC st0 none).toOption.map
        (fun p => p.1.water_usage)) := by
  with_unfolding_all decide

/-- Claim C1 as amended: an unknown cooling type string such as `"foo"`
makes `run_simulation` behave exactly like cooling type `"water"`, not
`"air"`: the engine dispatches on the raw constructor string, never
consulting the `CoolingManager` (which does normalize `"foo"` to air but is
not used by the loop). -/
theorem claim_C1_amended (cfg : Config) (ext : ExternalModel) (st : DCState)
    (wo : Option (List ℚ)) :
    runSimulation { cfg with cooling_type := "foo" } ext st wo
      = runSimulation { cfg with cooling_type := "water" } ext st wo :=
  runSimulation_cooling_nonair cfg ext st wo "foo" "water"
    (by decide) (by decide)

/-- Claim C4 counterexample: a configuration with capacity 0 MW and a
return-approach-temperature list of length 0 against 1 rack, run with a
caller-supplied workload of length 25 for a 24-hour simulation, is processed
without any error — no `ConfigurationError` exists anywhere in the code. -/
theorem claim_C4_counterexample :
    (runSimulation cfgBad extC st0 (some wl25)).isOk = true := by
  with_unfolding_all decide

/-- Claim C4 as amended: the code performs no configuration validation at
all.  A run with a caller-supplied workload succeeds exactly when the
workload has at least `24 * simulation_days` entries, for every
configuration, including capacity ≤ 0 and mismatched rack lists; a shorter
workload fails with `IndexError` inside the loop, and nothing is ever
rejected with a `ConfigurationError`. -/
theorem claim_C4_amended (cfg : Config) (ext : ExternalModel) (st : DCState)
    (wl : List ℚ) :
    (runSimulation cfg ext st (some wl)).isOk
      = decide (24 * cfg.simulation_days ≤ wl.length) := by
  by_cases h : 24 * cfg.simulation_days ≤ wl.length <;>
    simp [runSimulation, resolvedWorkload, h, Except.isOk, Except.toBool]

/-- Doubling the requested capacity doubles the scaling factor. -/
lemma scaling_factor_double (cfg : Config) (ext : ExternalModel) :
    scaling_factor { cfg with datacenter_capacity_mw := 2 * cfg.datacenter_capacity_mw } ext
      = 2 * scaling_factor cfg ext := by
  unfold scaling_factor
  show 2 * cfg.datacenter_capacity_mw * 1000000 / ext.total_DC_full_load = _
  rw [mul_assoc, mul_div_assoc]

/-- One loop iteration under doubled capacity: the recorded IT power and
water usage double, and the mutated state is unchanged by the capacity. -/
lemma simStep_double (cfg : Config) (ext : ExternalModel) (st : DCState)
    (i : ℕ) (w : ℚ) :
    (simStep { cfg with datacenter_capacity_mw := 2 * cfg.datacenter_capacity_mw } ext st i w).1.datacenter_energy
        = 2 * (simStep cfg ext st i w).1.datacenter_energy ∧
    (simStep { cfg with datacenter_capacity_mw := 2 * cfg.datacenter_capacity_mw } ext st i w).1.water_usage
        = 2 * (simStep cfg ext st i w).1.water_usage ∧
    (simStep { cfg with datacenter_capacity_mw := 2 * cfg.datacenter_capacity_mw } ext st i w).2
        = (simStep cfg ext st i w).2 := by
  refine ⟨?_, ?_, ?_⟩ <;>
    by_cases h : cfg.cooling_type = "air" <;>
      simp [simStep, h, scaling_factor] <;>
      ring

/-- The loop under doubled capacity: the IT-power and water series double
pointwise and the threaded state is the same. -/
lemma runSteps_double (cfg : Config) (ext : ExternalModel) :
    ∀ (l : List (ℕ × ℚ)) (st : DCState),
      ((runSteps { cfg with datacenter_capacity_mw := 2 * cfg.datacenter_capacity_mw } ext st l).1.map
          StepRecord.datacenter_energy
        = (runSteps cfg ext st l).1.map (fun r => 2 * r.datacenter_energy)) ∧
      ((runSteps { cfg with datacenter_capacity_mw := 2 * cfg.datacenter_capacity_mw } ext st l).1.map
          StepRecord.water_usage
        = (runSteps cfg ext st l).1.map (fun r => 2 * r.water_usage)) ∧
      (runSteps { cfg with datacenter_capacity_mw := 2 * cfg.datacenter_capacity_mw } ext st l).2
        = (runSteps cfg ext st l).2 := by
  intro l
  induction l with
  | nil => intro st; exact ⟨rfl, rfl, rfl⟩
  | cons p rest ih =>
    intro st
    obtain ⟨i, w⟩ := p
    obtain ⟨hd, hw, hs⟩ := simStep_double cfg ext st i w
    obtain ⟨ihd, ihw, ihs⟩ := ih (simStep cfg ext st i w).2
    simp only [runSteps, List.map_cons, hs]
    exact ⟨by rw [hd, ihd], by rw [hw, ihw], ihs⟩

/-- Claim C3 counterexample: under the concrete external model `extL`, whose
chiller power equals the full-load capacity it is given, doubling the
capacity does not double the cooling-power series (it quadruples it): the
HVAC model receives the already-scaled full load and its output is then
multiplied by the scaling factor again. -/
theorem claim_C3_counterexample :
    ((runSimulation cfgDouble extL st0 none).toOption.map
        (fun p => p.1.cooling_energy))
      ≠ ((runSimulation cfgBase extL st0 none).toOption.map
        (fun p => (p.1.cooling_energy.map (fun x => 2 * x)))) := by
  with_unfolding_all decide

/-- Claim C3 as amended: with workload, location and everything else fixed,
doubling `datacenter_capacity_mw` scales the recorded `it_power` and
`water_usage` series by exactly 2 at every timestep; the `cooling_power`
series does not scale by 2 in general, because the HVAC power model receives
the scaled full-load capacity as an input. -/
theorem claim_C3_amended (cfg : Config) (ext : ExternalModel) (st : DCState)
    (wo : Option (List ℚ)) (res1 res2 : SimResult) (st1 st2 : DCState)
    (h1 : runSimulation cfg ext st wo = Except.ok (res1, st1))
    (h2 : runSimulation { cfg with datacenter_capacity_mw := 2 * cfg.datacenter_capacity_mw } ext st wo
      = Except.ok (res2, st2)) :
    res2.datacenter_energy = res1.datacenter_energy.map (fun x => 2 * x) ∧
    res2.water_usage = res1.water_usage.map (fun x => 2 * x) := by
  obtain ⟨hres1, -⟩ := runSimulation_ok_shape h1
  obtain ⟨hres2, -⟩ := runSimulation_ok_shape h2
  subst hres1
  subst hres2
  have hsteps : simulationSteps { cfg with datacenter_capacity_mw := 2 * cfg.datacenter_capacity_mw } ext wo
      = simulationSteps cfg ext wo := rfl
  rw [SimResult.datacenter_energy, SimResult.datacenter_energy,
    SimResult.water_usage, SimResult.water_usage]
  simp only [hsteps, List.map_map]
  obtain ⟨hd, hw, -⟩ := runSteps_double cfg ext (simulationSteps cfg ext wo) st
  exact ⟨by rw [hd]; rfl, by rw [hw]; rfl⟩

/-- Witness for the amended C3 at the concrete runs under `extL`. -/
theorem claim_C3_witness :
    runSimulation cfgBase extL st0 none = Except.ok (resL1, stL1) ∧
    runSimulation cfgDouble extL st0 none = Except.ok (resL2, stL2) ∧
    (resL2.datacenter_energy = resL1.datacenter_energy.map (fun x => 2 * x) ∧
     resL2.water_usage = resL1.water_usage.map (fun x => 2 * x)) :=
  ⟨runL1_eq, runL2_eq,
   claim_C3_amended cfgBase extL st0 none resL1 resL2 stL1 stL2 runL1_eq runL2_eq⟩

/-- Claim C5 counterexample: the hybrid-cooled run records nonzero water
usage, yet its summary carries no water-usage key — the key is added only
when the cooling type is exactly `"water"`, not for every water-involving
type. -/
theorem claim_C5_counterexample :
    ((querySummary cfgHybridC resHybrid).toOption.map Summary.total_water_usage_liters)
        = some none ∧
    resHybrid.water_usage.sum ≠ 0 := by
  constructor
  · with_unfolding_all decide
  · with_unfolding_all decide

/-- Claim C5 as amended: the summary of an air-cooled result never includes
a water-usage key, and it includes `total_water_usage_liters` equal to the
sum of the recorded water-usage series exactly when the cooling type is the
string `"water"` — not for the other water-involving types (`immersion`,
`hybrid`), which get no key. -/
theorem claim_C5_amended (cfg : Config) (res : SimResult) (s : Summary)
    (h : querySummary cfg res = Except.ok s) :
    s.total_water_usage_liters
      = (if cfg.cooling_type = "water" then some res.water_usage.sum else none) := by
  unfold querySummary at h
  split at h
  · simp at h
  · rw [← Except.ok.inj h]

/-- Witness for the amended C5 at the concrete water-cooled run. -/
theorem claim_C5_witness :
    querySummary cfgWaterC resWater = Except.ok sumWater ∧
    sumWater.total_water_usage_liters
      = (if cfgWaterC.cooling_type = "water" then some resWater.water_usage.sum else none) :=
  ⟨sumWater_eq, claim_C5_amended cfgWaterC resWater sumWater sumWater_eq⟩

/-- Claim C9 counterexample: for immersion cooling — a water-involving type
whose water-usage factor is 0.3 — the estimate returns 0, not the spec's
formula, because the guard admits only `"water"` and `"hybrid"`. -/
theorem claim_C9_counterexample :
    (CoolingManager.init "immersion").estimate_water_usage 1000 25 50 = 0 ∧
    specWaterUsage 0.3 1000 25 50 ≠ 0 := by
  constructor
  · with_unfolding_all decide
  · with_unfolding_all decide

/-- Claim C9 as amended: for every heat, ambient temperature and humidity,
the water-usage estimate equals the spec's formula (base estimate times
temperature factor times humidity factor times the type's water-usage
factor) for the types `"water"` (factor 1) and `"hybrid"` (factor 1/2), and
returns 0 for `"immersion"` and `"air"` — this function treats only `water`
and `hybrid` as water-involving. -/
theorem claim_C9_amended (heat ambient humidity : ℚ) :
    (CoolingManager.init "water").estimate_water_usage heat ambient humidity
        = specWaterUsage 1 heat ambient humidity ∧
    (CoolingManager.init "hybrid").estimate_water_usage heat ambient humidity
        = specWaterUsage 0.5 heat ambient humidity ∧
    (CoolingManager.init "immersion").estimate_water_usage heat ambient humidity = 0 ∧
    (CoolingManager.init "air").estimate_water_usage heat ambient humidity = 0 := by
  refine ⟨?_, ?_, ?_, ?_⟩ <;>
    simp [CoolingManager.init, CoolingManager.estimate_water_usage, COOLING_TYPES,
      specWaterUsage]

/-- Claim C10 counterexample: `"ZZ"` has no data source in either dictionary,
yet the carbon-intensity provider's file resolution silently yields the Texas
file instead of raising — it never fails for any location code. -/
theorem claim_C10_counterexample :
    GRID_REGIONS "ZZ" = none ∧ CI_FILES "ZZ" = none ∧
    carbonIntensityFile "ZZ" = "TX_NG_&_avgCI.csv" := by
  refine ⟨?_, ?_, ?_⟩ <;> with_unfolding_all decide

/-- Claim C10 as amended: for a location code with no known data source, the
temperature provider does raise (`ValueError`), but the carbon-intensity
provider does not: it silently falls back to the Texas data file. -/
theorem claim_C10_amended (code : String) (h : code ∉ knownLocationCodes) :
    locationWeatherFile code
        = Except.error "No weather data available for location code" ∧
    carbonIntensityFile code = "TX_NG_&_avgCI.csv" := by
  simp only [knownLocationCodes, List.mem_cons, List.not_mem_nil, or_false, not_or] at h
  obtain ⟨h1, h2, h3, h4, h5, h6, h7, h8⟩ := h
  constructor
  · simp [locationWeatherFile, WEATHER_FILES, h1, h2, h3, h4, h5, h6, h7, h8]
  · simp [carbonIntensityFile, CI_FILES, GRID_REGIONS, h1, h2, h3, h4, h5, h6, h7, h8]

/-- Witness for the amended C10 at the unknown location code `"ZZ"`. -/
theorem claim_C10_witness :
    "ZZ" ∉ knownLocationCodes ∧
    (locationWeatherFile "ZZ"
        = Except.error "No weather data available for location code" ∧
     carbonIntensityFile "ZZ" = "TX_NG_&_avgCI.csv") :=
  ⟨by decide, claim_C10_amended "ZZ" (by decide)⟩

end Solstice
